import Mathlib

/-
Verification of the afk-claude-telegram-bridge-skill repository.

The development shallowly embeds the parts of src/hook.py and src/bridge.py
that the claims talk about:

  * the slot registry mutated under the state lock by cmd_activate and
    cmd_deactivate (hook.py),
  * the bridge daemon state machine for permission batching, session
    trust and approval tracking (bridge.py),
  * the adapter poll loops reading response, kill and force_clear files
    (hook.py),
  * the event-log scanner (bridge.py) and the queued-instruction writers
    (bridge.py).

Filesystem reads that depend on the outside world (liveness of the daemon
process, existence of mailbox directories) are abstracted as boolean
oracles passed to the functions that consult them; wall-clock instants are
integers; the JSON parser is abstracted by classifying each input line or
file by its parse outcome.  Everything else follows the Python source
line by line.
-/

namespace Afk

/- ──────────────────────────────────────────────────────────────────────
   Section 1: the slot registry of hook.py (claims C1 and C10).

   state.json holds a dict from slot number (a small-integer string,
   modelled as Nat) to slot metadata.  Python dicts preserve insertion
   order, so the registry is modelled as an ordered association list.
   ────────────────────────────────────────────────────────────────────── -/

/-- Metadata stored per slot by cmd_activate (hook.py:540-545). -/
structure SlotInfo where
  sessionId : String
  project : String
  topicName : String
  deriving DecidableEq

/-- The slots dict of state.json, in insertion order. -/
abbrev Slots := List (Nat × SlotInfo)

/-- Default topic name, hook.py:543 and 552: S(slot) - (project or unknown). -/
def defaultTopicName (slot : Nat) (project : String) : String :=
  "S" ++ toString slot ++ " - " ++ (if project = "" then "unknown" else project)

/-- cleanup_stale_slots (hook.py:148-185): drop every slot that fails the
is_slot_actually_active check.  That check consults the filesystem and the
daemon process, so it is abstracted as the oracle live. -/
def cleanupStaleSlots (live : Nat → SlotInfo → Bool) (slots : Slots) : Slots :=
  slots.filter (fun p => live p.1 p.2)

/-- The free-slot search of cmd_activate (hook.py:524-530): first index in
range(1, max_slots + 1) that is not a key of the slots dict. -/
def findFreeSlot (maxSlots : Nat) (slots : Slots) : Option Nat :=
  (List.range' 1 maxSlots).find? (fun i => !(slots.any (fun p => p.1 == i)))

/-- The claim step of cmd_activate (hook.py:524-545).  If no slot is free
the code calls sys.exit(1) inside the locked operation, so save_state is
skipped and the persisted registry stays at the ORIGINAL state orig
(hook.py:64-76 together with 532-537); otherwise the new entry is appended
to the cleaned state slots2. -/
def claimSlot (maxSlots : Nat) (sid project topicName : String)
    (orig slots2 : Slots) : Slots :=
  match findFreeSlot maxSlots slots2 with
  | none => orig
  | some k =>
      slots2 ++ [(k, ⟨sid, if project = "" then "unknown" else project,
                     if topicName = "" then defaultTopicName k project else topicName⟩)]

/-- do_activate of cmd_activate (hook.py:466-587), restricted to its effect
on the slots dict: clean stale slots, return early when the session is
already active, evict a duplicate project/topic slot, then claim the first
free slot.  The branch returning early when the duplicate slot is live and
carries the same session id is unreachable (the already-active check has
just failed) but is kept to mirror hook.py:503-506. -/
def activateResolve (live : Nat → SlotInfo → Bool) (maxSlots : Nat)
    (sid project topicName : String) (orig slots1 : Slots) : Slots :=
  match slots1.find? (fun p => p.2.sessionId == sid) with
  | some _ => slots1
  | none =>
    match slots1.find? (fun p =>
        p.2.project == (if project = "" then "unknown" else project) &&
        p.2.topicName == (if topicName = "" then defaultTopicName p.1 project else topicName)) with
    | some (k, info) =>
        if live k info && info.sessionId == sid then slots1
        else claimSlot maxSlots sid project topicName orig
              (slots1.eraseP (fun p => p.1 == k))
    | none => claimSlot maxSlots sid project topicName orig slots1

def cmdActivate (live : Nat → SlotInfo → Bool) (maxSlots : Nat)
    (sid project topicName : String) (slots : Slots) : Slots :=
  activateResolve live maxSlots sid project topicName slots
    (cleanupStaleSlots live slots)

/-- do_deactivate of cmd_deactivate (hook.py:592-680), restricted to its
effect on the slots dict.  It returns the new dict together with the slot
number and session id that were deactivated (the session whose mailbox
receives the deactivation event), or none when the dict was empty.  When no
slot matches the requested session id, hook.py:606-614 falls back to the
FIRST entry of the dict. -/
def cmdDeactivate (sid : String) (slots : Slots) : Slots × Option (Nat × String) :=
  match slots.find? (fun p => p.2.sessionId == sid) with
  | some (k, info) => (slots.eraseP (fun p => p.1 == k), some (k, info.sessionId))
  | none =>
      match slots with
      | [] => (slots, none)
      | (k, info) :: _ => (slots.eraseP (fun p => p.1 == k), some (k, info.sessionId))

/-- A registry operation performed under the state lock. -/
inductive RegOp
  | activate (live : Nat → SlotInfo → Bool) (sid project topicName : String)
  | deactivate (sid : String)

/-- One locked state operation (locked_state_op in hook.py). -/
def applyRegOp (maxSlots : Nat) (slots : Slots) : RegOp → Slots
  | .activate live sid project topicName =>
      cmdActivate live maxSlots sid project topicName slots
  | .deactivate sid => (cmdDeactivate sid slots).1

/-- A sequence of locked registry operations starting from the empty
registry (load_state default, hook.py:50-55). -/
def runRegOps (maxSlots : Nat) (ops : List RegOp) : Slots :=
  ops.foldl (applyRegOp maxSlots) []

/-- The registry invariant: slot keys are distinct and in 1..N, and no two
slots carry the same session id. -/
def RegInv (N : Nat) (slots : Slots) : Prop :=
  (slots.map Prod.fst).Nodup ∧
  (∀ p ∈ slots, 1 ≤ p.1 ∧ p.1 ≤ N) ∧
  (slots.map (fun p => p.2.sessionId)).Nodup

theorem regInv_of_sublist {N : Nat} {s s' : Slots} (h : List.Sublist s' s)
    (hs : RegInv N s) : RegInv N s' := by
  obtain ⟨h1, h2, h3⟩ := hs
  exact ⟨h1.sublist (h.map _), fun p hp => h2 p (h.subset hp), h3.sublist (h.map _)⟩

theorem regInv_length {N : Nat} {s : Slots} (hs : RegInv N s) : s.length ≤ N := by
  obtain ⟨h1, h2, _⟩ := hs
  have hsub : (s.map Prod.fst) ⊆ List.range' 1 N := by
    intro k hk
    rw [List.mem_map] at hk
    obtain ⟨p, hp, rfl⟩ := hk
    have := h2 p hp
    rw [List.mem_range'_1]
    omega
  have hlen := (h1.subperm hsub).length_le
  rw [List.length_map] at hlen
  rw [List.length_range'] at hlen
  exact hlen

theorem findFreeSlot_spec {maxSlots : Nat} {slots : Slots} {k : Nat}
    (h : findFreeSlot maxSlots slots = some k) :
    (1 ≤ k ∧ k ≤ maxSlots) ∧ ∀ p ∈ slots, p.1 ≠ k := by
  unfold findFreeSlot at h
  have hmem := List.mem_of_find?_eq_some h
  have hpred := List.find?_some h
  rw [List.mem_range'_1] at hmem
  constructor
  · omega
  · intro p hp
    simp only [Bool.not_eq_true', List.any_eq_false, beq_iff_eq] at hpred
    exact fun hk => hpred p hp (by simp [hk])

theorem regInv_claimSlot {N : Nat} {sid project topicName : String}
    {orig slots2 : Slots}
    (horig : RegInv N orig) (hs2 : RegInv N slots2)
    (hfresh : ∀ p ∈ slots2, p.2.sessionId ≠ sid) :
    RegInv N (claimSlot N sid project topicName orig slots2) := by
  unfold claimSlot
  cases hfind : findFreeSlot N slots2 with
  | none => exact horig
  | some k =>
      obtain ⟨⟨hk1, hk2⟩, hknot⟩ := findFreeSlot_spec hfind
      obtain ⟨h1, h2, h3⟩ := hs2
      refine ⟨?_, ?_, ?_⟩
      · rw [List.map_append, List.nodup_append]
        refine ⟨h1, by simp, ?_⟩
        intro a ha hb
        simp only [List.map_cons, List.map_nil, List.mem_singleton] at hb
        subst hb
        rw [List.mem_map] at ha
        obtain ⟨p, hp, hpk⟩ := ha
        exact hknot p hp hpk
      · intro p hp
        rw [List.mem_append] at hp
        rcases hp with hp | hp
        · exact h2 p hp
        · simp only [List.mem_singleton] at hp
          subst hp
          exact ⟨hk1, hk2⟩
      · rw [List.map_append, List.nodup_append]
        refine ⟨h3, by simp, ?_⟩
        intro a ha hb
        simp only [List.map_cons, List.map_nil, List.mem_singleton] at hb
        subst hb
        rw [List.mem_map] at ha
        obtain ⟨p, hp, hpk⟩ := ha
        exact hfresh p hp hpk

theorem regInv_activateResolve {N : Nat} (live : Nat → SlotInfo → Bool)
    {sid project topicName : String} {orig slots1 : Slots}
    (horig : RegInv N orig) (hs1 : RegInv N slots1) :
    RegInv N (activateResolve live N sid project topicName orig slots1) := by
  unfold activateResolve
  split
  · exact hs1
  next hfind =>
    have hfresh1 : ∀ p ∈ slots1, p.2.sessionId ≠ sid := by
      intro p hp
      have h := List.find?_eq_none.mp hfind p hp
      simpa using h
    split
    next k info hdup =>
      split
      · exact hs1
      · have herase : RegInv N (slots1.eraseP (fun p => p.1 == k)) :=
          regInv_of_sublist (List.eraseP_sublist _) hs1
        have hfresh2 : ∀ p ∈ slots1.eraseP (fun p => p.1 == k),
            p.2.sessionId ≠ sid := fun p hp =>
          hfresh1 p ((List.eraseP_sublist _).subset hp)
        exact regInv_claimSlot horig herase hfresh2
    next hdup =>
      exact regInv_claimSlot horig hs1 hfresh1

theorem regInv_cmdActivate {N : Nat} (live : Nat → SlotInfo → Bool)
    {sid project topicName : String} {slots : Slots} (hs : RegInv N slots) :
    RegInv N (cmdActivate live N sid project topicName slots) := by
  have hs1 : RegInv N (cleanupStaleSlots live slots) :=
    regInv_of_sublist (List.filter_sublist slots) hs
  exact regInv_activateResolve live hs hs1

theorem regInv_applyRegOp {N : Nat} {slots : Slots} (hs : RegInv N slots)
    (op : RegOp) : RegInv N (applyRegOp N slots op) := by
  cases op with
  | activate live sid project topicName => exact regInv_cmdActivate live hs
  | deactivate sid =>
      show RegInv N (cmdDeactivate sid slots).1
      unfold cmdDeactivate
      split
      · exact regInv_of_sublist (List.eraseP_sublist _) hs
      · split
        · exact hs
        · exact regInv_of_sublist (List.eraseP_sublist _) hs

theorem regInv_runRegOps (N : Nat) (ops : List RegOp) :
    RegInv N (runRegOps N ops) := by
  suffices h : ∀ (s : Slots), RegInv N s → RegInv N (ops.foldl (applyRegOp N) s) by
    exact h [] ⟨by simp, by simp, by simp⟩
  induction ops with
  | nil => intro s hs; simpa using hs
  | cons op rest ih =>
      intro s hs
      exact ih _ (regInv_applyRegOp hs op)

/-- C1: for every sequence of activate and deactivate operations performed
under the state lock with max_slots = N, starting from the empty registry,
the slots map never holds more than N occupied entries and no two occupied
entries carry the same session_id.  (Every reachable registry state is
runRegOps N ops for some prefix ops, so the statement ranges over all
reachable states.) -/
theorem C1_registry_invariant (N : Nat) (ops : List RegOp) :
    (runRegOps N ops).length ≤ N ∧
    ((runRegOps N ops).map (fun p => p.2.sessionId)).Nodup := by
  have h := regInv_runRegOps N ops
  exact ⟨regInv_length h, h.2.2⟩

/-- C10: when the registry is non-empty and no slot matches the requested
session id, cmd_deactivate does not fail: it removes the FIRST occupied
slot and reports that unrelated session (whose mailbox then receives the
deactivation event); the deactivated session differs from the requested
one.  Only the empty registry yields the no-active-session report (none)
and leaves the state unchanged. -/
theorem C10_deactivate_falls_back_to_first_slot
    (k : Nat) (info : SlotInfo) (rest : Slots) (sid : String)
    (hnomatch : ∀ p ∈ (k, info) :: rest, p.2.sessionId ≠ sid) :
    cmdDeactivate sid ((k, info) :: rest) = (rest, some (k, info.sessionId)) ∧
    info.sessionId ≠ sid ∧
    cmdDeactivate sid ([] : Slots) = ([], none) := by
  have hfind : ((k, info) :: rest).find? (fun p => p.2.sessionId == sid) = none := by
    rw [List.find?_eq_none]
    intro p hp
    simpa using hnomatch p hp
  refine ⟨?_, hnomatch (k, info) (by simp), by rfl⟩
  unfold cmdDeactivate
  rw [hfind]
  simp [List.eraseP_cons]

/-- Witness for C10 at a concrete registry: one occupied slot whose session
differs from the requested id. -/
theorem C10_witness :
    cmdDeactivate "wrong-id" [(1, ⟨"real-session", "proj", "S1 - proj"⟩)] =
      ([], some (1, "real-session")) ∧
    "real-session" ≠ "wrong-id" ∧
    cmdDeactivate "wrong-id" ([] : Slots) = ([], none) :=
  C10_deactivate_falls_back_to_first_slot 1 ⟨"real-session", "proj", "S1 - proj"⟩ []
    "wrong-id" (by decide)

/- ──────────────────────────────────────────────────────────────────────
   Section 2: the adapter poll loops of hook.py (claims C6, C7, C9).

   _poll_response and _poll_response_or_kill wake once per interval and
   inspect the mailbox.  A poll run is modelled as the list of filesystem
   snapshots seen at the successive ticks before the deadline; an empty
   suffix never reached a terminating condition, so a run over the whole
   list returning none models the timeout.
   ────────────────────────────────────────────────────────────────────── -/

/-- Fields of a response-(event_id).json file that hook.py reads. -/
structure RespData where
  decision : Option String
  message : Option String
  instruction : Option String
  deriving DecidableEq

/-- Outcome of trying to read the response file at one tick, classifying
the result of open plus json.load (hook.py:1044-1051 and 1076-1083). -/
inductive RespRead
  | absent
  | malformed
  | valid (r : RespData)
  deriving DecidableEq

/-- The mailbox as seen at the start of one poll tick. -/
structure Snap where
  kill : Option String
  forceClear : Bool
  response : RespRead
  deriving DecidableEq

/-- Files removed by one poll tick. -/
structure TickEff where
  removedForceClear : Bool
  removedResponse : Bool
  deriving DecidableEq

/-- Python str.strip(): drop whitespace from both ends.  Implemented by
structural recursion over the character list so that concrete instances
evaluate inside the kernel. -/
def pyStrip (s : String) : String :=
  ⟨((s.data.dropWhile Char.isWhitespace).reverse.dropWhile Char.isWhitespace).reverse⟩

/-- Python str.lower(), by structural recursion over the characters. -/
def pyLower (s : String) : String :=
  ⟨s.data.map Char.toLower⟩

/-- The reason string extracted from the kill file (hook.py:1025-1031):
file content stripped, empty or unreadable content becomes unknown. -/
def killReason (content : String) : String :=
  if pyStrip content = "" then "unknown" else pyStrip content

/-- Result of _poll_response_or_kill (hook.py:1016-1056). -/
inductive StopPollResult
  | killed (reason : String)
  | data (r : RespData)
  deriving DecidableEq

/-- One tick of _poll_response_or_kill (hook.py:1023-1054): the kill file
is checked first, then force_clear, then the ordinary response file.  A
malformed or unreadable response file is skipped and polling continues. -/
def pollOrKillTick (s : Snap) : Option StopPollResult × TickEff :=
  match s.kill with
  | some c => (some (.killed (killReason c)), ⟨false, false⟩)
  | none =>
    if s.forceClear then (some (.data ⟨none, none, some "/clear"⟩), ⟨true, false⟩)
    else match s.response with
      | .valid r => (some (.data r), ⟨false, true⟩)
      | _ => (none, ⟨false, false⟩)

/-- The whole poll loop of _poll_response_or_kill over the ticks that fit
before the deadline; none models the timeout return at hook.py:1056. -/
def pollOrKillRun : List Snap → Option StopPollResult
  | [] => none
  | s :: rest =>
      match (pollOrKillTick s).1 with
      | some out => some out
      | none => pollOrKillRun rest

/-- What the Stop branch of cmd_hook does with one poll round
(hook.py:923-958). -/
inductive StopOutcome
  | exitKilled (reason : String)
  | blockWith (instruction : String)
  | acceptStop
  | keepAliveRepoll
  | repoll
  deriving DecidableEq

/-- Dispatch of cmd_hook on the poll result (hook.py:926-958): a kill
result exits returning control to the host; a response with a non-empty
instruction blocks the stop with that instruction; a response whose
instruction field is present but empty accepts the stop; a timeout writes
a keep_alive event and re-polls. -/
def stopDispatch (res : Option StopPollResult) : StopOutcome :=
  match res with
  | some (.killed reason) => .exitKilled reason
  | some (.data r) =>
      match r.instruction with
      | some i => if i ≠ "" then .blockWith i else .acceptStop
      | none => .repoll
  | none => .keepAliveRepoll

/-- One tick of _poll_response (hook.py:1066-1086): force_clear is checked
first and converted into an allow decision with the marker removed;
otherwise the response file is read and removed; a malformed response file
is skipped. -/
def pollResponseTick (s : Snap) : Option RespData × TickEff :=
  if s.forceClear then (some ⟨some "allow", none, none⟩, ⟨true, false⟩)
  else match s.response with
    | .valid r => (some r, ⟨false, true⟩)
    | _ => (none, ⟨false, false⟩)

/-- The whole _poll_response loop; none models the timeout
(hook.py:1088). -/
def pollResponseRun : List Snap → Option RespData
  | [] => none
  | s :: rest =>
      match (pollResponseTick s).1 with
      | some r => some r
      | none => pollResponseRun rest

/-- The decision shape cmd_hook returns to the host for a
PermissionRequest. -/
inductive PermBehavior
  | allow
  | deny (message : String)
  deriving DecidableEq

/-- cmd_hook after the poll (hook.py:862-892): an allow decision passes
through; anything else, including a missing decision field, denies with the
response message; a timeout denies with the timeout message. -/
def permissionDecision (res : Option RespData) : PermBehavior :=
  match res with
  | some r =>
      if r.decision.getD "deny" = "allow" then .allow
      else .deny (r.message.getD "Denied via Telegram")
  | none => .deny "Telegram approval timed out"

/-- The tool_input fields inspected by the auto-approve path
(hook.py:813-816); an absent field is the empty string. -/
structure ToolInput where
  filePath : String
  path : String
  notebookPath : String
  deriving DecidableEq

/-- hook.py:814-816: first non-empty of file_path, path, notebook_path. -/
def extractPath (ti : ToolInput) : String :=
  if ti.filePath ≠ "" then ti.filePath
  else if ti.path ≠ "" then ti.path
  else if ti.notebookPath ≠ "" then ti.notebookPath
  else ""

/-- The allow-list check of cmd_hook (hook.py:804-832).  The glob matcher
fnmatch.fnmatch is abstracted as the oracle matchGlob. -/
def shouldAutoApprove (matchGlob : String → String → Bool)
    (autoTools autoPaths : List String) (toolName : String) (ti : ToolInput) : Bool :=
  autoTools.contains toolName &&
    (autoPaths.isEmpty ||
      (extractPath ti == "" || autoPaths.any (fun pat => matchGlob (extractPath ti) pat)))

/-- The PermissionRequest branch of cmd_hook (hook.py:800-895): the
allow-list short-circuits with an allow decision, otherwise the adapter
writes the event and polls the mailbox for the decision. -/
def permissionHook (matchGlob : String → String → Bool)
    (autoTools autoPaths : List String) (toolName : String) (ti : ToolInput)
    (snaps : List Snap) : PermBehavior :=
  if shouldAutoApprove matchGlob autoTools autoPaths toolName ti then .allow
  else permissionDecision (pollResponseRun snaps)

theorem pollOrKillRun_of_tick {snaps : List Snap} {i : Nat}
    (hi : i < snaps.length) {out : StopPollResult}
    (htick : (pollOrKillTick (snaps.get ⟨i, hi⟩)).1 = some out)
    (hbefore : ∀ j, (hj : j < i) →
      (pollOrKillTick (snaps.get ⟨j, by omega⟩)).1 = none) :
    pollOrKillRun snaps = some out := by
  induction snaps generalizing i with
  | nil => exact absurd hi (by simp)
  | cons s rest ih =>
      cases i with
      | zero =>
          simp only [List.get] at htick
          simp [pollOrKillRun, htick]
      | succ n =>
          have h0 := hbefore 0 (by omega)
          simp only [List.get] at h0 htick
          simp only [pollOrKillRun, h0]
          exact ih (by simpa using hi) htick
            (fun j hj => by
              have := hbefore (j + 1) (by omega)
              simpa using this)

/-- C6: during a blocked stop/pause poll, the kill marker is checked at the
start of every tick before the response file: a tick whose snapshot holds a
kill file returns a killed result without consuming the response file, even
if a response file is present at that tick, and therefore a kill marker
appearing at any tick of the run (no earlier tick having terminated it)
makes the adapter return control to the host within that tick, however many
ticks the loop has already been blocked. -/
theorem C6_kill_checked_every_tick_before_response
    (snaps : List Snap) (i : Nat) (hi : i < snaps.length) (c : String)
    (hkill : (snaps.get ⟨i, hi⟩).kill = some c)
    (hbefore : ∀ j, (hj : j < i) →
      (pollOrKillTick (snaps.get ⟨j, by omega⟩)).1 = none) :
    (pollOrKillTick (snaps.get ⟨i, hi⟩)).1 = some (.killed (killReason c)) ∧
    (pollOrKillTick (snaps.get ⟨i, hi⟩)).2.removedResponse = false ∧
    pollOrKillRun snaps = some (.killed (killReason c)) ∧
    stopDispatch (pollOrKillRun snaps) = .exitKilled (killReason c) := by
  have htick : (pollOrKillTick (snaps.get ⟨i, hi⟩)).1 =
      some (.killed (killReason c)) := by
    unfold pollOrKillTick
    rw [hkill]
  have heff : (pollOrKillTick (snaps.get ⟨i, hi⟩)).2.removedResponse = false := by
    unfold pollOrKillTick
    rw [hkill]
  have hrun := pollOrKillRun_of_tick hi htick hbefore
  exact ⟨htick, heff, hrun, by rw [hrun]; rfl⟩

/-- Witness for C6: a single tick whose snapshot holds both a kill marker
and a valid response file still yields the killed result. -/
theorem C6_witness :
    (pollOrKillTick ((([⟨some "topic deleted", false,
        .valid ⟨none, none, some "continue"⟩⟩] : List Snap)).get ⟨0, by decide⟩)).1 =
      some (.killed (killReason "topic deleted")) ∧
    (pollOrKillTick ((([⟨some "topic deleted", false,
        .valid ⟨none, none, some "continue"⟩⟩] : List Snap)).get ⟨0, by decide⟩)).2.removedResponse = false ∧
    pollOrKillRun [⟨some "topic deleted", false, .valid ⟨none, none, some "continue"⟩⟩] =
      some (.killed (killReason "topic deleted")) ∧
    stopDispatch (pollOrKillRun [⟨some "topic deleted", false,
      .valid ⟨none, none, some "continue"⟩⟩]) = .exitKilled (killReason "topic deleted") :=
  C6_kill_checked_every_tick_before_response
    [⟨some "topic deleted", false, .valid ⟨none, none, some "continue"⟩⟩]
    0 (by decide) "topic deleted" rfl (fun j hj => absurd hj (by omega))

theorem pollResponseRun_eq_none {snaps : List Snap}
    (hclean : ∀ s ∈ snaps, s.forceClear = false ∧ s.response = .absent) :
    pollResponseRun snaps = none := by
  induction snaps with
  | nil => rfl
  | cons s rest ih =>
      obtain ⟨hfc, hresp⟩ := hclean s (by simp)
      have htick : (pollResponseTick s).1 = none := by
        unfold pollResponseTick
        rw [hfc, hresp]
        rfl
      simp only [pollResponseRun, htick]
      exact ih (fun t ht => hclean t (by simp [ht]))

/-- C7: a permission request that the configured allow-list does not
auto-approve, and for which no response file and no force_clear marker
appears at any tick before permission_timeout elapses, resolves to a deny
decision with the timeout message: the timeout is never left unresolved and
never defaults to allow. -/
theorem C7_permission_timeout_denies (matchGlob : String → String → Bool)
    (autoTools autoPaths : List String) (toolName : String) (ti : ToolInput)
    (snaps : List Snap)
    (hnoauto : shouldAutoApprove matchGlob autoTools autoPaths toolName ti = false)
    (hclean : ∀ s ∈ snaps, s.forceClear = false ∧ s.response = .absent) :
    permissionHook matchGlob autoTools autoPaths toolName ti snaps =
      .deny "Telegram approval timed out" := by
  unfold permissionHook
  rw [hnoauto]
  rw [pollResponseRun_eq_none hclean]
  rfl

/-- Witness for C7: an unlisted tool and two empty poll ticks. -/
theorem C7_witness :
    shouldAutoApprove (fun _ _ => false) [] [] "Bash" ⟨"", "", ""⟩ = false ∧
    permissionHook (fun _ _ => false) [] [] "Bash" ⟨"", "", ""⟩
      [⟨none, false, .absent⟩, ⟨none, false, .absent⟩] =
      .deny "Telegram approval timed out" :=
  ⟨by decide,
   C7_permission_timeout_denies (fun _ _ => false) [] [] "Bash" ⟨"", "", ""⟩
     [⟨none, false, .absent⟩, ⟨none, false, .absent⟩] (by decide) (by decide)⟩

theorem pollResponseRun_of_tick {snaps : List Snap} {i : Nat}
    (hi : i < snaps.length) {r : RespData}
    (htick : (pollResponseTick (snaps.get ⟨i, hi⟩)).1 = some r)
    (hbefore : ∀ j, (hj : j < i) →
      (pollResponseTick (snaps.get ⟨j, by omega⟩)).1 = none) :
    pollResponseRun snaps = some r := by
  induction snaps generalizing i with
  | nil => exact absurd hi (by simp)
  | cons s rest ih =>
      cases i with
      | zero =>
          simp only [List.get] at htick
          simp [pollResponseRun, htick]
      | succ n =>
          have h0 := hbefore 0 (by omega)
          simp only [List.get] at h0 htick
          simp only [pollResponseRun, h0]
          exact ih (by simpa using hi) htick
            (fun j hj => by
              have := hbefore (j + 1) (by omega)
              simpa using this)

/- ──────────────────────────────────────────────────────────────────────
   Section 3: writers of the queued-instruction file (claims C3 and C9).

   queued_instruction.json is modelled by its instruction field: none when
   the file is absent, some s when it holds instruction s.  The writers are
   the generic message path of _handle_message (merge-append) and the
   command interception paths for /clear and /compact (overwrite), plus the
   consumption on the next stop event in _process_event.
   ────────────────────────────────────────────────────────────────────── -/

/-- The canned compact instruction (bridge.py:780-784, same text at
bridge.py:610-614). -/
def COMPACT_INSTRUCTION : String :=
  "Summarize and compress this conversation to preserve key context while reducing token usage. " ++
  "Keep: current task state, key decisions, file paths, active errors. " ++
  "Drop: completed tool outputs, verbose logs, resolved discussions."

/-- bridge.py:690-693: strip a @botname suffix from a command.  The text
reaching this point is already stripped, so the first whitespace-delimited
word of Python split() is the longest non-whitespace prefix, and
split with the @ separator, first chunk, is the prefix before the first @. -/
def stripBotMention (t : String) : String :=
  if t.data.headD ' ' == '/' &&
      (t.data.takeWhile (fun c => !c.isWhitespace)).contains '@' then
    ⟨t.data.takeWhile (fun c => c != '@')⟩
  else t

/-- COMMAND_MAP of _handle_message (bridge.py:785-788). -/
def commandMap (t : String) : Option String :=
  if t = "/clear" then some "/clear"
  else if t = "/compact" then some COMPACT_INSTRUCTION
  else none

/-- _handle_message (bridge.py:680-905) restricted to a resolved target
session with NO stop-type pending interaction, projected onto the
queued-instruction file.  Returns the new file content and whether a
force_clear marker was written.  The /ping and /end commands are answered
by the daemon directly and leave the file alone (bridge.py:696-777); /clear
and /compact overwrite the file with their canned instruction and /clear
additionally writes force_clear (bridge.py:820-835); every other text is
merge-appended after the existing content plus a space
(bridge.py:888-905). -/
def handleQueuedMessage (queued : Option String) (rawText : String) :
    Option String × Bool :=
  let t1 := pyStrip rawText
  if t1 = "" then (queued, false)
  else
    let text := stripBotMention t1
    if pyLower text = "/ping" then (queued, false)
    else if pyLower text = "/end" then (queued, false)
    else
      match commandMap (pyLower text) with
      | some instruction => (some instruction, pyLower text == "/clear")
      | none =>
          let existing :=
            match queued with
            | some s => s ++ " "
            | none => ""
          (some (existing ++ text), false)

/-- The queued-instruction consumption of the stop branch of
_process_event (bridge.py:429-444): the stripped instruction is written as
the response and the file unlinked when non-empty; an effectively empty
file is left in place and no response is produced.  Returns (response
written, remaining file content). -/
def stopConsumeQueued (q : Option String) : Option String × Option String :=
  match q with
  | none => (none, none)
  | some c =>
      if pyStrip c ≠ "" then (some (pyStrip c), none) else (none, some c)

/-- C3 counterexample: the claim covers EVERY writer of the
queued-instruction file, but the command-interception writer overwrites
instead of merging.  Queuing the text do X and then the operator command
/clear (both while no stop-type pending interaction exists) leaves the file
holding exactly /clear: the first instruction is lost, not concatenated. -/
theorem C3_counterexample :
    (handleQueuedMessage (handleQueuedMessage none "do X").1 "/clear").1 =
      some "/clear" ∧
    (some "/clear" : Option String) ≠ some ("do X" ++ " " ++ "/clear") := by
  decide

/-- C3 amended: the merge guarantee holds for the generic message path
only: for texts that are not intercepted commands, queuing A then B while
no stop-type pending interaction exists yields exactly the order-preserving
concatenation, and the next stop event delivers exactly that combined text;
intercepted commands (/clear, /compact) instead overwrite the file. -/
def GenericText (t : String) : Prop :=
  pyStrip t = t ∧ t ≠ "" ∧ stripBotMention t = t ∧
  pyLower t ≠ "/ping" ∧ pyLower t ≠ "/end" ∧ commandMap (pyLower t) = none

theorem C3_amended_generic_merge (A B : String)
    (hA : GenericText A) (hB : GenericText B)
    (htrim : pyStrip (A ++ " " ++ B) = A ++ " " ++ B)
    (hne : A ++ " " ++ B ≠ "") :
    (handleQueuedMessage none A).1 = some A ∧
    (handleQueuedMessage (some A) B).1 = some (A ++ " " ++ B) ∧
    stopConsumeQueued (handleQueuedMessage (handleQueuedMessage none A).1 B).1 =
      (some (A ++ " " ++ B), none) := by
  obtain ⟨hA1, hA2, hA3, hA4, hA5, hA6⟩ := hA
  obtain ⟨hB1, hB2, hB3, hB4, hB5, hB6⟩ := hB
  have h1 : (handleQueuedMessage none A).1 = some A := by
    simp only [handleQueuedMessage, hA1, hA3, hA6, if_neg hA2, if_neg hA4, if_neg hA5]
    rfl
  have h2 : (handleQueuedMessage (some A) B).1 = some (A ++ " " ++ B) := by
    simp only [handleQueuedMessage, hB1, hB3, hB6, if_neg hB2, if_neg hB4, if_neg hB5]
  have h3 : stopConsumeQueued (some (A ++ " " ++ B)) = (some (A ++ " " ++ B), none) := by
    simp only [stopConsumeQueued, htrim, if_pos hne]
  rw [h1, h2, h3]
  exact ⟨rfl, rfl, rfl⟩

/-- Witness for C3 amended, at the concrete texts A and B. -/
theorem C3_amended_witness :
    (GenericText "run tests" ∧ GenericText "then lint" ∧
      pyStrip ("run tests" ++ " " ++ "then lint") = "run tests" ++ " " ++ "then lint" ∧
      "run tests" ++ " " ++ "then lint" ≠ "") ∧
    (handleQueuedMessage none "run tests").1 = some "run tests" ∧
    (handleQueuedMessage (some "run tests") "then lint").1 =
      some ("run tests" ++ " " ++ "then lint") ∧
    stopConsumeQueued
        (handleQueuedMessage (handleQueuedMessage none "run tests").1 "then lint").1 =
      (some ("run tests" ++ " " ++ "then lint"), none) := by
  refine ⟨⟨?_, ?_, ?_, ?_⟩, ?_⟩
  · exact ⟨by decide, by decide, by decide, by decide, by decide, by decide⟩
  · exact ⟨by decide, by decide, by decide, by decide, by decide, by decide⟩
  · decide
  · decide
  · exact C3_amended_generic_merge "run tests" "then lint"
      ⟨by decide, by decide, by decide, by decide, by decide, by decide⟩
      ⟨by decide, by decide, by decide, by decide, by decide, by decide⟩
      (by decide) (by decide)

/-- C9: while a permission request is blocked in _poll_response, a
force_clear marker existing at the start of a poll tick (every earlier tick
having found nothing) makes the adapter remove the marker and return an
allow decision for the pending tool call, so the permission request is
approved; and the daemon writes exactly that marker when the operator sends
/clear with no stop-type pending interaction outstanding. -/
theorem C9_force_clear_approves_pending_permission
    (snaps : List Snap) (i : Nat) (hi : i < snaps.length)
    (hfc : (snaps.get ⟨i, hi⟩).forceClear = true)
    (hbefore : ∀ j, (hj : j < i) →
      (pollResponseTick (snaps.get ⟨j, by omega⟩)).1 = none) :
    (pollResponseTick (snaps.get ⟨i, hi⟩)).1 = some ⟨some "allow", none, none⟩ ∧
    (pollResponseTick (snaps.get ⟨i, hi⟩)).2.removedForceClear = true ∧
    permissionDecision (pollResponseRun snaps) = .allow ∧
    ∀ q : Option String, (handleQueuedMessage q "/clear").2 = true := by
  have htick : (pollResponseTick (snaps.get ⟨i, hi⟩)).1 =
      some ⟨some "allow", none, none⟩ := by
    unfold pollResponseTick
    rw [hfc]
    rfl
  have heff : (pollResponseTick (snaps.get ⟨i, hi⟩)).2.removedForceClear = true := by
    unfold pollResponseTick
    rw [hfc]
    rfl
  have hrun := pollResponseRun_of_tick hi htick hbefore
  refine ⟨htick, heff, by rw [hrun]; rfl, fun q => rfl⟩

/-- Witness for C9: a run whose single tick sees the force_clear marker. -/
theorem C9_witness :
    (pollResponseTick ((([⟨none, true, .absent⟩] : List Snap)).get ⟨0, by decide⟩)).1 =
      some ⟨some "allow", none, none⟩ ∧
    (pollResponseTick ((([⟨none, true, .absent⟩] : List Snap)).get ⟨0, by decide⟩)).2.removedForceClear = true ∧
    permissionDecision (pollResponseRun [⟨none, true, .absent⟩]) = .allow ∧
    ∀ q : Option String, (handleQueuedMessage q "/clear").2 = true :=
  C9_force_clear_approves_pending_permission [⟨none, true, .absent⟩] 0 (by decide)
    rfl (fun j hj => absurd hj (by omega))

/- ──────────────────────────────────────────────────────────────────────
   Section 4: the event-log scanner of the daemon (claim C8).

   _scan_events reads the new lines of events.jsonl and dispatches each
   parsed event.  A raw line is classified by the outcome of strip() and
   json.loads: effectively empty; json.loads raises JSONDecodeError;
   json.loads succeeds but yields a value that is NOT an object (a number,
   a string, a list, null); or json.loads yields an object, which the
   daemon treats as an event.  The scanner result records the events
   dispatched to _process_event, the log records the scan emits, and
   whether the scan was terminated by an uncaught exception.
   ────────────────────────────────────────────────────────────────────── -/

/-- The fields of a scanned event that identify it in the daemon log. -/
structure ScanEvent where
  etype : String
  eid : String
  deriving DecidableEq

/-- One raw line of events.jsonl, classified by the outcome of strip()
and json.loads: blank lines hit the continue at bridge.py:335-336;
malformed lines make json.loads raise JSONDecodeError; nonObject lines are
JSON-parseable but yield a non-dict value (such as 123, a quoted string, a
list or null), which json.loads returns successfully; valid lines yield an
object with the event fields. -/
inductive RawLine
  | blank
  | malformed (s : String)
  | nonObject (s : String)
  | valid (e : ScanEvent)
  deriving DecidableEq

/-- Log records that can arise from scanning a chunk of lines.  The only
log call on this path is the processing record at the top of
_process_event (bridge.py:347); the skippedMalformed record names the log
entry the specification claims for a malformed line, which bridge.py never
emits (the except JSONDecodeError handler at bridge.py:340-341 is pass). -/
inductive ScanLog
  | processed (e : ScanEvent)
  | skippedMalformed (s : String)
  deriving DecidableEq

/-- The outcome of one scan of a chunk of event-log lines: the events
dispatched to _process_event in order, the log records emitted, and
crashed = some line when the scan was terminated by an uncaught exception
raised on that line (the daemon process dies and the remaining lines are
never read). -/
structure ScanResult where
  events : List ScanEvent
  logs : List ScanLog
  crashed : Option String
  deriving DecidableEq

/-- The per-line loop of _scan_events (bridge.py:333-341): an effectively
empty line is skipped by the continue; a line whose json.loads raises
JSONDecodeError is skipped by the pass handler; a well-formed object line
is dispatched to _process_event, which logs it.  A nonObject line passes
json.loads, so _process_event receives a value without a get method and
event.get at bridge.py:344 raises AttributeError; the except clause at
bridge.py:340-341 catches only JSONDecodeError, and run() calls
_scan_events unguarded (bridge.py:282), so the exception terminates the
scan and the daemon: the lines after it are never processed. -/
def scanEvents : List RawLine → ScanResult
  | [] => ⟨[], [], none⟩
  | .blank :: rest => scanEvents rest
  | .malformed _ :: rest => scanEvents rest
  | .nonObject s :: _ => ⟨[], [], some s⟩
  | .valid e :: rest =>
      let r := scanEvents rest
      ⟨e :: r.events, .processed e :: r.logs, r.crashed⟩

/-- C8 counterexample: on a log containing a malformed line, the scan does
skip the line and continue, but emits NO log record for it (the except
handler at bridge.py:340-341 is a bare pass), and the never-fatal part of
the claim fails as well: a line that parses as JSON but is not an object
(here the line 123) makes _process_event raise AttributeError, which is not
caught, so the scan is terminated, the daemon dies, and the subsequent
well-formed line is never processed. -/
theorem C8_counterexample :
    (scanEvents [.malformed "not json", .valid ⟨"stop", "e1"⟩]).events =
      [⟨"stop", "e1"⟩] ∧
    ScanLog.skippedMalformed "not json" ∉
      (scanEvents [.malformed "not json", .valid ⟨"stop", "e1"⟩]).logs ∧
    (scanEvents [.malformed "not json", .valid ⟨"stop", "e1"⟩]).logs =
      [.processed ⟨"stop", "e1"⟩] ∧
    scanEvents [.malformed "not json", .nonObject "123", .valid ⟨"stop", "e2"⟩] =
      ⟨[], [], some "123"⟩ := by
  decide

/-- C8 amended: an empty line or a line on which json.loads fails is
skipped SILENTLY — it is dropped from the scan without any log record and
without affecting the processing of any other line, and the log records
are exactly the processing records of the dispatched events.  The
never-fatal part of the claim does not survive in general: a line that
parses as JSON but is not an object reaches _process_event and raises
AttributeError, which only the JSONDecodeError handler surrounds, so the
first such line terminates the scan and the daemon (crashed reports it)
and nothing after it is processed — one session's bad data CAN be
fatal. -/
theorem C8_amended_silent_skip_but_non_object_is_fatal :
    (∀ (xs ys : List RawLine),
        scanEvents (xs ++ .blank :: ys) = scanEvents (xs ++ ys)) ∧
    (∀ (xs ys : List RawLine) (s : String),
        scanEvents (xs ++ .malformed s :: ys) = scanEvents (xs ++ ys)) ∧
    (∀ ls : List RawLine,
        (scanEvents ls).logs = (scanEvents ls).events.map ScanLog.processed) ∧
    (∀ (xs ys : List RawLine) (s : String),
        (scanEvents xs).crashed = none →
        scanEvents (xs ++ .nonObject s :: ys) =
          ⟨(scanEvents xs).events, (scanEvents xs).logs, some s⟩) := by
  refine ⟨?_, ?_, ?_, ?_⟩
  · intro xs ys
    induction xs with
    | nil => rfl
    | cons l rest ih =>
        cases l with
        | blank => simpa [scanEvents] using ih
        | malformed t => simpa [scanEvents] using ih
        | nonObject t => rfl
        | valid e => simp [scanEvents, ih]
  · intro xs ys s
    induction xs with
    | nil => rfl
    | cons l rest ih =>
        cases l with
        | blank => simpa [scanEvents] using ih
        | malformed t => simpa [scanEvents] using ih
        | nonObject t => rfl
        | valid e => simp [scanEvents, ih]
  · intro ls
    induction ls with
    | nil => rfl
    | cons l rest ih =>
        cases l with
        | blank => simpa [scanEvents] using ih
        | malformed t => simpa [scanEvents] using ih
        | nonObject t => rfl
        | valid e => simp [scanEvents, ih]
  · intro xs ys s
    induction xs with
    | nil => intro _; rfl
    | cons l rest ih =>
        cases l with
        | blank =>
            intro h
            rw [show (RawLine.blank :: rest) ++ RawLine.nonObject s :: ys =
              RawLine.blank :: (rest ++ RawLine.nonObject s :: ys) from rfl]
            simp only [scanEvents] at h ⊢
            exact ih h
        | malformed t =>
            intro h
            rw [show (RawLine.malformed t :: rest) ++ RawLine.nonObject s :: ys =
              RawLine.malformed t :: (rest ++ RawLine.nonObject s :: ys) from rfl]
            simp only [scanEvents] at h ⊢
            exact ih h
        | nonObject t =>
            intro h
            simp [scanEvents] at h
        | valid e =>
            intro h
            simp only [scanEvents] at h
            have := ih h
            simp [scanEvents, this]

/-- Witness for C8 amended: a malformed line between two events is dropped
without a trace, and a crash-free prefix followed by the non-object line
123 ends in a terminated scan that never reaches the following event. -/
theorem C8_amended_witness :
    scanEvents [.valid ⟨"stop", "e1"⟩, .malformed "oops", .valid ⟨"stop", "e2"⟩] =
      scanEvents [.valid ⟨"stop", "e1"⟩, .valid ⟨"stop", "e2"⟩] ∧
    (scanEvents [.valid ⟨"stop", "e1"⟩]).crashed = none ∧
    scanEvents ([.valid ⟨"stop", "e1"⟩] ++ .nonObject "123" :: [.valid ⟨"stop", "e2"⟩]) =
      ⟨(scanEvents [.valid ⟨"stop", "e1"⟩]).events,
       (scanEvents [.valid ⟨"stop", "e1"⟩]).logs, some "123"⟩ :=
  ⟨C8_amended_silent_skip_but_non_object_is_fatal.2.1
      [.valid ⟨"stop", "e1"⟩] [.valid ⟨"stop", "e2"⟩] "oops",
   by decide,
   C8_amended_silent_skip_but_non_object_is_fatal.2.2.2
      [.valid ⟨"stop", "e1"⟩] [.valid ⟨"stop", "e2"⟩] "123" (by decide)⟩

/- ──────────────────────────────────────────────────────────────────────
   Section 5: daemon permission batching, approval tracking and session
   trust (claims C2, C4 and C5).

   The BridgeDaemon dictionaries are ordered association lists (Python
   dicts preserve insertion order).  Wall-clock instants are integers (the
   unit is irrelevant; the concrete instances below use tenths of a
   second).  Telegram sends are assumed to succeed; message ids and the
   uuid batch ids are drawn from a counter in the state.  The typing
   indicator and the stale-event warning are outside the modelled claims
   and are omitted from the state.
   ────────────────────────────────────────────────────────────────────── -/

/-- The fields of a permission_request event the daemon uses. -/
structure PermEvent where
  id : String
  toolName : String
  description : String
  deriving DecidableEq

/-- A value of the permission_batch dict (bridge.py:404-410). -/
structure BatchInfo where
  events : List PermEvent
  timerStart : Int
  threadId : Option Nat
  slot : Nat
  deriving DecidableEq

/-- A value of the pending_events dict (bridge.py:453-460, 1072-1078,
1104-1111). -/
structure PendingInfo where
  sessionId : String
  ptype : String
  messageId : Nat
  eventIds : List String
  slot : Nat
  createdAt : Int
  deriving DecidableEq

/-- The daemon state relevant to permission handling
(bridge.py:244-259). -/
structure DState where
  permissionBatch : List (String × BatchInfo)
  trustedSessions : List String
  approvalCounts : List (String × Nat)
  interactionCounts : List (String × Nat)
  contextWarningSent : List (String × Nat)
  pendingEvents : List (String × PendingInfo)
  sessionThreads : List (String × Nat)
  msgCounter : Nat
  deriving DecidableEq

/-- dict lookup. -/
def alookup {α : Type} (k : String) (l : List (String × α)) : Option α :=
  (l.find? (fun p => p.1 == k)).map (fun p => p.2)

/-- dict assignment: updates in place, appends when the key is new. -/
def aset {α : Type} (k : String) (v : α) (l : List (String × α)) :
    List (String × α) :=
  if (l.find? (fun p => p.1 == k)).isSome then
    l.map (fun p => if p.1 == k then (k, v) else p)
  else l ++ [(k, v)]

/-- dict deletion. -/
def aremove {α : Type} (k : String) (l : List (String × α)) :
    List (String × α) :=
  l.filter (fun p => p.1 != k)

/-- Observable daemon actions: mailbox response files written and Telegram
messages sent. -/
inductive DEffect
  | promptSingle (sessionId eventId : String)
  | promptBatch (sessionId batchId : String) (eventIds : List String)
  | respond (sessionId eventId decision : String)
  | autoApproveNote (sessionId toolName : String)
  | trustOffer (sessionId : String)
  | contextWarning (sessionId : String)
  | answerCallback (text : String)
  | editMessage (messageId : Nat) (text : String)
  deriving DecidableEq

/-- _increment_interaction (bridge.py:964-994): bump the per-session
counter and send at most one context warning per threshold level; the
second level int(threshold * 1.25) is threshold * 5 / 4 rounded down. -/
def incrementInteraction (cwT : Nat) (sid : String) (st : DState) :
    DState × List DEffect :=
  let count := (alookup sid st.interactionCounts).getD 0 + 1
  let st1 := { st with interactionCounts := aset sid count st.interactionCounts }
  let lastWarned := (alookup sid st1.contextWarningSent).getD 0
  if count ≥ cwT ∧ lastWarned < cwT then
    ({ st1 with contextWarningSent := aset sid cwT st1.contextWarningSent },
     [.contextWarning sid])
  else if count ≥ cwT * 5 / 4 ∧ lastWarned < cwT * 5 / 4 then
    ({ st1 with contextWarningSent := aset sid (cwT * 5 / 4) st1.contextWarningSent },
     [.contextWarning sid])
  else (st1, [])

/-- The permission_request branch of _process_event (bridge.py:400-413):
always enqueue the event into the per-session batch, creating the batch
with timer_start = now when absent.  No response is written and no message
is sent here. -/
def processPermissionEvent (cwT : Nat) (now : Int) (sid : String) (slot : Nat)
    (e : PermEvent) (st : DState) : DState × List DEffect :=
  let thread := alookup sid st.sessionThreads
  let (st1, effs) := incrementInteraction cwT sid st
  let st2 :=
    match alookup sid st1.permissionBatch with
    | some _ => st1
    | none =>
        { st1 with permissionBatch := aset sid ⟨[], now, thread, slot⟩ st1.permissionBatch }
  match alookup sid st2.permissionBatch with
  | some b =>
      let b2 : BatchInfo := { b with events := b.events ++ [e] }
      ({ st2 with permissionBatch := aset sid b2 st2.permissionBatch }, effs)
  | none => (st2, effs)

/-- _auto_approve_permission (bridge.py:1132-1142): write the allow
response and, when the session has a topic thread, send a note. -/
def autoApprovePermission (e : PermEvent) (sid : String) (st : DState) :
    DState × List DEffect :=
  (st, .respond sid e.id "allow" ::
    (match alookup sid st.sessionThreads with
     | some _ => [.autoApproveNote sid e.toolName]
     | none => []))

/-- The per-batch part of _flush_permission_batches (bridge.py:1060-1111),
called once the window has elapsed and the batch has been removed from the
dict: a single accumulated event becomes a single prompt (or an immediate
auto-approval when the session is trusted); several events become one
combined prompt (or per-event auto-approvals when trusted). -/
def flushSession (now : Int) (sid : String) (b : BatchInfo) (st : DState) :
    DState × List DEffect :=
  match b.events with
  | [e] =>
      if st.trustedSessions.contains sid then
        autoApprovePermission e sid st
      else
        let mid := st.msgCounter
        ({ st with
            msgCounter := mid + 1,
            pendingEvents :=
              aset e.id ⟨sid, "permission_request", mid, [], b.slot, now⟩ st.pendingEvents },
         [.promptSingle sid e.id])
  | events =>
      if st.trustedSessions.contains sid then
        events.foldl
          (fun acc e =>
            let (st2, effs2) := autoApprovePermission e sid acc.1
            (st2, acc.2 ++ effs2))
          (st, [])
      else
        let bid := "batch-" ++ toString st.msgCounter
        let mid := st.msgCounter
        ({ st with
            msgCounter := mid + 1,
            pendingEvents :=
              aset bid ⟨sid, "permission_batch", mid, events.map (fun e => e.id), b.slot, now⟩
                st.pendingEvents },
         [.promptBatch sid bid (events.map (fun e => e.id))])

/-- The body of the loop of _flush_permission_batches (bridge.py:1050-1058):
skip batches whose window has not elapsed, flush the others. -/
def flushStep (W now : Int) (acc : DState × List DEffect) (sid : String) :
    DState × List DEffect :=
  match alookup sid acc.1.permissionBatch with
  | none => acc
  | some b =>
      if now - b.timerStart < W then acc
      else
        let st1 := { acc.1 with permissionBatch := aremove sid acc.1.permissionBatch }
        let (st2, effs2) := flushSession now sid b st1
        (st2, acc.2 ++ effs2)

/-- _flush_permission_batches (bridge.py:1045-1111): iterate over a
snapshot of the batch keys. -/
def flushPermissionBatches (W now : Int) (st : DState) : DState × List DEffect :=
  (st.permissionBatch.map (fun p => p.1)).foldl (flushStep W now) (st, [])

/-- _track_approval (bridge.py:1116-1130): bump the approval counter and,
at the threshold, offer the one-tap trust button for a session that is not
yet trusted and has a topic thread. -/
def trackApproval (threshold : Nat) (sid : String) (n : Nat) (st : DState) :
    DState × List DEffect :=
  let c := (alookup sid st.approvalCounts).getD 0 + n
  let st1 := { st with approvalCounts := aset sid c st.approvalCounts }
  if c ≥ threshold ∧ st1.trustedSessions.contains sid = false then
    match alookup sid st1.sessionThreads with
    | some _ => (st1, [.trustOffer sid])
    | none => (st1, [])
  else (st1, [])

/-- The allow branch of _handle_callback (bridge.py:525-531): write the
allow response, acknowledge, edit the prompt, drop the pending entry, and
track the manual approval. -/
def handleCallbackAllow (threshold : Nat) (eventId : String) (st : DState) :
    DState × List DEffect :=
  match alookup eventId st.pendingEvents with
  | none => (st, [.answerCallback "Event expired"])
  | some p =>
      let st1 := { st with pendingEvents := aremove eventId st.pendingEvents }
      let (st2, effs2) := trackApproval threshold p.sessionId 1 st1
      (st2, [.respond p.sessionId eventId "allow", .answerCallback "Approved",
             .editMessage p.messageId "Approved"] ++ effs2)

/-- The trust_session branch of _handle_callback (bridge.py:589-596): mark
the session trusted. -/
def handleCallbackTrust (sid : String) (st : DState) : DState × List DEffect :=
  ({ st with trustedSessions :=
      if st.trustedSessions.contains sid then st.trustedSessions
      else st.trustedSessions ++ [sid] },
   [.answerCallback "Session trusted!"])

/-- The configuration values the modelled paths read. -/
structure DConfig where
  batchWindow : Int
  trustThreshold : Nat
  contextWarningThreshold : Nat

/-- An input consumed by one iteration of the daemon loop: a scanned
permission event, a batch-flush tick, or an operator tap. -/
inductive DAct
  | permEvent (sid : String) (slot : Nat) (e : PermEvent) (t : Int)
  | flushTick (t : Int)
  | cbAllow (eventId : String)
  | cbTrust (sid : String)

def dstep (cfg : DConfig) (st : DState) : DAct → DState × List DEffect
  | .permEvent sid slot e t =>
      processPermissionEvent cfg.contextWarningThreshold t sid slot e st
  | .flushTick t => flushPermissionBatches cfg.batchWindow t st
  | .cbAllow eid => handleCallbackAllow cfg.trustThreshold eid st
  | .cbTrust sid => handleCallbackTrust sid st

/-- Run of the daemon loop over a list of inputs, accumulating effects. -/
def drun (cfg : DConfig) (st : DState) : List DAct → DState × List DEffect
  | [] => (st, [])
  | a :: acts =>
      let (st1, effs1) := dstep cfg st a
      let (st2, effs2) := drun cfg st1 acts
      (st2, effs1 ++ effs2)

/-- Daemon state right after startup (bridge.py:239-259), with the
session_threads entries established by prior activations and the given
trusted set. -/
def initDState (trusted : List String) (threads : List (String × Nat)) : DState :=
  ⟨[], trusted, [], [], [], [], threads, 0⟩

/-- The event-id lists of the prompts among the effects, in order. -/
def promptedIdLists (effs : List DEffect) : List (List String) :=
  effs.filterMap (fun e =>
    match e with
    | .promptSingle _ eid => some [eid]
    | .promptBatch _ _ eids => some eids
    | _ => none)

/-- C5 counterexample: a permission-request event from a trusted session IS
enqueued into the permission batch, and no allow response is written when
the event is consumed: the trust check happens only at flush time
(bridge.py:1066 and 1093), not at enqueue time (bridge.py:400-413). -/
theorem C5_counterexample :
    alookup "s" (drun ⟨20, 3, 150⟩ (initDState ["s"] [("s", 7)])
      [.permEvent "s" 1 ⟨"e1", "Bash", "d"⟩ 5]).1.permissionBatch =
      some ⟨[⟨"e1", "Bash", "d"⟩], 5, some 7, 1⟩ ∧
    (drun ⟨20, 3, 150⟩ (initDState ["s"] [("s", 7)])
      [.permEvent "s" 1 ⟨"e1", "Bash", "d"⟩ 5]).2 = [] := by
  decide

/-- C5 amended: a permission-request event from a trusted session is first
enqueued into the session batch (with no response written yet); when the
batch window elapses and the flush tick runs, the daemon writes the allow
response and sends the auto-approval note, and no operator prompt is ever
produced — so the auto-approval is delayed by the batch window rather than
immediate. -/
theorem C5_amended_trusted_approves_at_flush (sid : String) (e : PermEvent)
    (th slot : Nat) :
    (drun ⟨20, 3, 150⟩ (initDState [sid] [(sid, th)])
      [.permEvent sid slot e 5]).2 = [] ∧
    alookup sid (drun ⟨20, 3, 150⟩ (initDState [sid] [(sid, th)])
      [.permEvent sid slot e 5]).1.permissionBatch =
      some ⟨[e], 5, some th, slot⟩ ∧
    (drun ⟨20, 3, 150⟩ (initDState [sid] [(sid, th)])
      [.permEvent sid slot e 5, .flushTick 25]).2 =
      [.respond sid e.id "allow", .autoApproveNote sid e.toolName] ∧
    promptedIdLists (drun ⟨20, 3, 150⟩ (initDState [sid] [(sid, th)])
      [.permEvent sid slot e 5, .flushTick 25]).2 = [] := by
  have hstep : dstep ⟨20, 3, 150⟩ (initDState [sid] [(sid, th)])
      (.permEvent sid slot e 5) =
      (⟨[(sid, ⟨[e], 5, some th, slot⟩)], [sid], [], [(sid, 1)], [], [], [(sid, th)], 0⟩,
       []) := by
    simp [dstep, processPermissionEvent, incrementInteraction, alookup, aset,
      initDState]
  have hflush : dstep ⟨20, 3, 150⟩
      (⟨[(sid, ⟨[e], 5, some th, slot⟩)], [sid], [], [(sid, 1)], [], [], [(sid, th)], 0⟩ : DState)
      (.flushTick 25) =
      (⟨[], [sid], [], [(sid, 1)], [], [], [(sid, th)], 0⟩,
       [.respond sid e.id "allow", .autoApproveNote sid e.toolName]) := by
    simp [dstep, flushPermissionBatches, flushStep, flushSession,
      autoApprovePermission, alookup, aremove]
  refine ⟨?_, ?_, ?_, ?_⟩
  · simp [drun, hstep]
  · simp [drun, hstep, alookup]
  · simp [drun, hstep, hflush]
  · simp [drun, hstep, hflush, promptedIdLists]

/-- The inputs of the C2 scenario: three permission requests, each flushed
into a prompt and manually approved, then a fourth permission request and
its flush.  Time unit: tenths of a second, window 20 = the default 2 s. -/
def c2acts : List DAct :=
  [.permEvent "s" 1 ⟨"e1", "Bash", "d1"⟩ 0, .flushTick 20, .cbAllow "e1",
   .permEvent "s" 1 ⟨"e2", "Write", "d2"⟩ 100, .flushTick 120, .cbAllow "e2",
   .permEvent "s" 1 ⟨"e3", "Edit", "d3"⟩ 200, .flushTick 220, .cbAllow "e3",
   .permEvent "s" 1 ⟨"e4", "Bash", "d4"⟩ 300, .flushTick 320]

/-- The C2 scenario continued: the operator taps the trust offer, then a
fifth permission request arrives and is flushed. -/
def c2actsTrusted : List DAct :=
  c2acts ++ [.cbTrust "s", .permEvent "s" 1 ⟨"e5", "Bash", "d5"⟩ 400,
             .flushTick 420]

/-- C2 counterexample: with session_trust_threshold 3, after exactly 3
manual approvals have been recorded for the session, the NEXT permission
request still produces an operator prompt and no allow response is written
for it — crossing the threshold only sends a trust OFFER
(bridge.py:1116-1130); auto-approval starts only after the operator taps
trust_session. -/
theorem C2_counterexample :
    alookup "s" (drun ⟨20, 3, 150⟩ (initDState [] [("s", 7)]) c2acts).1.approvalCounts =
      some 3 ∧
    (drun ⟨20, 3, 150⟩ (initDState [] [("s", 7)]) c2acts).1.trustedSessions = [] ∧
    DEffect.promptSingle "s" "e4" ∈ (drun ⟨20, 3, 150⟩ (initDState [] [("s", 7)]) c2acts).2 ∧
    DEffect.respond "s" "e4" "allow" ∉ (drun ⟨20, 3, 150⟩ (initDState [] [("s", 7)]) c2acts).2 := by
  decide

/-- C2 amended: each manual approval increments the approval counter;
reaching the threshold (3) makes the daemon send a one-tap trust offer, but
permission requests keep producing operator prompts while the session is
untrusted — in general, flushing a single-event batch of an untrusted
session always emits a prompt, and of a trusted session always writes the
allow response via the auto-approval path; after the operator taps
trust_session, the next permission request is auto-approved without a
prompt. -/
theorem C2_amended_trust_needs_operator_tap :
    DEffect.trustOffer "s" ∈ (drun ⟨20, 3, 150⟩ (initDState [] [("s", 7)]) c2acts).2 ∧
    (∀ (now : Int) (sid : String) (b : BatchInfo) (st : DState) (e : PermEvent),
        b.events = [e] → st.trustedSessions.contains sid = false →
        (flushSession now sid b st).2 = [.promptSingle sid e.id]) ∧
    (∀ (now : Int) (sid : String) (b : BatchInfo) (st : DState) (e : PermEvent),
        b.events = [e] → st.trustedSessions.contains sid = true →
        flushSession now sid b st = autoApprovePermission e sid st) ∧
    DEffect.respond "s" "e5" "allow" ∈
      (drun ⟨20, 3, 150⟩ (initDState [] [("s", 7)]) c2actsTrusted).2 ∧
    DEffect.promptSingle "s" "e5" ∉
      (drun ⟨20, 3, 150⟩ (initDState [] [("s", 7)]) c2actsTrusted).2 ∧
    (drun ⟨20, 3, 150⟩ (initDState [] [("s", 7)]) c2actsTrusted).1.trustedSessions = ["s"] := by
  refine ⟨by decide, ?_, ?_, by decide, by decide, by decide⟩
  · intro now sid b st e hev htrust
    unfold flushSession
    rw [hev, htrust]
    simp
  · intro now sid b st e hev htrust
    unfold flushSession
    rw [hev, htrust]
    simp

/-- Witness for C2 amended: the two universal conjuncts applied at a
concrete flush of an untrusted and of a trusted session. -/
theorem C2_amended_witness :
    (flushSession 0 "u" ⟨[⟨"e9", "Bash", "d"⟩], 0, some 7, 1⟩
        (initDState [] [("u", 7)])).2 = [.promptSingle "u" "e9"] ∧
    flushSession 0 "u" ⟨[⟨"e9", "Bash", "d"⟩], 0, some 7, 1⟩
        (initDState ["u"] [("u", 7)]) =
      autoApprovePermission ⟨"e9", "Bash", "d"⟩ "u" (initDState ["u"] [("u", 7)]) :=
  ⟨C2_amended_trust_needs_operator_tap.2.1 0 "u" ⟨[⟨"e9", "Bash", "d"⟩], 0, some 7, 1⟩
      (initDState [] [("u", 7)]) ⟨"e9", "Bash", "d"⟩ rfl (by decide),
   C2_amended_trust_needs_operator_tap.2.2.1 0 "u" ⟨[⟨"e9", "Bash", "d"⟩], 0, some 7, 1⟩
      (initDState ["u"] [("u", 7)]) ⟨"e9", "Bash", "d"⟩ rfl (by decide)⟩

theorem flushStep_noop (W t : Int) (acc : DState × List DEffect) (sid : String)
    (h : ∀ b, alookup sid acc.1.permissionBatch = some b → t - b.timerStart < W) :
    flushStep W t acc sid = acc := by
  unfold flushStep
  split
  · rfl
  next b heq => rw [if_pos (h b heq)]

theorem flush_fold_noop (W t : Int) (keys : List String) (st : DState)
    (effs : List DEffect)
    (h : ∀ sid ∈ keys, ∀ b, alookup sid st.permissionBatch = some b →
      t - b.timerStart < W) :
    keys.foldl (flushStep W t) (st, effs) = (st, effs) := by
  induction keys with
  | nil => rfl
  | cons sid rest ih =>
      rw [List.foldl_cons]
      rw [flushStep_noop W t (st, effs) sid (fun b hb => h sid (by simp) b hb)]
      exact ih (fun s hs b hb => h s (by simp [hs]) b hb)

theorem flushPermissionBatches_noop (W t : Int) (st : DState)
    (h : ∀ p ∈ st.permissionBatch, t - p.2.timerStart < W) :
    flushPermissionBatches W t st = (st, []) := by
  unfold flushPermissionBatches
  apply flush_fold_noop
  intro sid _ b hb
  unfold alookup at hb
  cases hfq : st.permissionBatch.find? (fun p => p.1 == sid) with
  | none => rw [hfq] at hb; simp at hb
  | some q =>
      rw [hfq] at hb
      simp at hb
      have hmem := List.mem_of_find?_eq_some hfq
      have hq := h q hmem
      rw [hb] at hq
      exact hq

theorem flushPermissionBatches_single (W now : Int) (sid : String) (b : BatchInfo)
    (st : DState) (hpb : st.permissionBatch = [(sid, b)])
    (hexp : ¬ (now - b.timerStart < W)) :
    flushPermissionBatches W now st =
      flushSession now sid b { st with permissionBatch := [] } := by
  have hlk : alookup sid st.permissionBatch = some b := by
    rw [hpb]; simp [alookup]
  have hrm : aremove sid st.permissionBatch = [] := by
    rw [hpb]; simp [aremove]
  unfold flushPermissionBatches
  rw [hpb]
  simp only [List.map_cons, List.map_nil, List.foldl_cons, List.foldl_nil]
  unfold flushStep
  dsimp only
  rw [hlk]
  dsimp only
  rw [if_neg hexp]
  rw [hrm]
  cases hfs : flushSession now sid b { st with permissionBatch := [] } with
  | mk st2 effs2 => rfl

/-- C4 counterexample: with window W = 20 (tenths of a second, the default
2 s), events at t0, t0 + 0.1 W and t0 + 1.5 W for the same session, and no
flush tick between the window expiry and the third event (possible because
the daemon loop can block for several seconds in the Telegram long poll),
all three events are combined into ONE prompt: the third event is appended
to the still-open batch even though it arrived after W had elapsed, so the
claimed outcome of one batch of two and one singleton batch does not
hold. -/
theorem C4_counterexample :
    promptedIdLists (drun ⟨20, 3, 150⟩ (initDState [] [("s", 7)])
      [.permEvent "s" 1 ⟨"e1", "Bash", "d1"⟩ 0,
       .permEvent "s" 1 ⟨"e2", "Write", "d2"⟩ 2,
       .permEvent "s" 1 ⟨"e3", "Edit", "d3"⟩ 30,
       .flushTick 35]).2 = [["e1", "e2", "e3"]] ∧
    ([["e1", "e2", "e3"]] : List (List String)) ≠ [["e1", "e2"], ["e3"]] := by
  decide

/-- C4 amended: a flush tick can never close a batch whose window has not
yet elapsed, so an event processed within W of the batch start always joins
that batch; an event arriving after the window has elapsed starts a new
batch only when some flush tick has run in between (otherwise it is
appended to the still-open batch, as the counterexample shows).  With a
flush tick between the expiry of the first window and the third event, the
scenario e1 at 0, e2 at t2 < W, e3 at t3 ≥ W yields exactly one combined
prompt of e1 and e2 and one singleton prompt of e3. -/
theorem C4_amended_window_needs_flush_tick (W t2 tf t3 t4 : Int)
    (_hW : 0 < W) (_ht2a : 0 ≤ t2) (_ht2 : t2 < W) (htf1 : W ≤ tf)
    (_htf2 : tf ≤ t3) (ht4 : t3 + W ≤ t4) :
    (∀ (t : Int) (st : DState),
        (∀ p ∈ st.permissionBatch, t - p.2.timerStart < W) →
        flushPermissionBatches W t st = (st, [])) ∧
    promptedIdLists (drun ⟨W, 3, 150⟩ (initDState [] [("s", 7)])
      [.permEvent "s" 1 ⟨"e1", "Bash", "d1"⟩ 0,
       .permEvent "s" 1 ⟨"e2", "Write", "d2"⟩ t2,
       .flushTick tf,
       .permEvent "s" 1 ⟨"e3", "Edit", "d3"⟩ t3,
       .flushTick t4]).2 = [["e1", "e2"], ["e3"]] := by
  constructor
  · exact fun t st h => flushPermissionBatches_noop W t st h
  · have h1 : processPermissionEvent 150 0 "s" 1 ⟨"e1", "Bash", "d1"⟩
        (initDState [] [("s", 7)]) =
        (⟨[("s", ⟨[⟨"e1", "Bash", "d1"⟩], 0, some 7, 1⟩)], [], [], [("s", 1)],
          [], [], [("s", 7)], 0⟩, []) := rfl
    have h2 : processPermissionEvent 150 t2 "s" 1 ⟨"e2", "Write", "d2"⟩
        (⟨[("s", ⟨[⟨"e1", "Bash", "d1"⟩], 0, some 7, 1⟩)], [], [], [("s", 1)],
          [], [], [("s", 7)], 0⟩ : DState) =
        (⟨[("s", ⟨[⟨"e1", "Bash", "d1"⟩, ⟨"e2", "Write", "d2"⟩], 0, some 7, 1⟩)],
          [], [], [("s", 2)], [], [], [("s", 7)], 0⟩, []) := rfl
    have h3 : flushPermissionBatches W tf
        (⟨[("s", ⟨[⟨"e1", "Bash", "d1"⟩, ⟨"e2", "Write", "d2"⟩], 0, some 7, 1⟩)],
          [], [], [("s", 2)], [], [], [("s", 7)], 0⟩ : DState) =
        (⟨[], [], [], [("s", 2)], [],
          [("batch-0", ⟨"s", "permission_batch", 0, ["e1", "e2"], 1, tf⟩)],
          [("s", 7)], 1⟩,
         [.promptBatch "s" "batch-0" ["e1", "e2"]]) := by
      rw [flushPermissionBatches_single W tf "s"
        ⟨[⟨"e1", "Bash", "d1"⟩, ⟨"e2", "Write", "d2"⟩], 0, some 7, 1⟩ _ rfl
        (by show ¬ (tf - (0 : Int) < W); omega)]
      rfl
    have h4 : processPermissionEvent 150 t3 "s" 1 ⟨"e3", "Edit", "d3"⟩
        (⟨[], [], [], [("s", 2)], [],
          [("batch-0", ⟨"s", "permission_batch", 0, ["e1", "e2"], 1, tf⟩)],
          [("s", 7)], 1⟩ : DState) =
        (⟨[("s", ⟨[⟨"e3", "Edit", "d3"⟩], t3, some 7, 1⟩)], [], [], [("s", 3)], [],
          [("batch-0", ⟨"s", "permission_batch", 0, ["e1", "e2"], 1, tf⟩)],
          [("s", 7)], 1⟩, []) := rfl
    have h5 : flushPermissionBatches W t4
        (⟨[("s", ⟨[⟨"e3", "Edit", "d3"⟩], t3, some 7, 1⟩)], [], [], [("s", 3)], [],
          [("batch-0", ⟨"s", "permission_batch", 0, ["e1", "e2"], 1, tf⟩)],
          [("s", 7)], 1⟩ : DState) =
        (⟨[], [], [], [("s", 3)], [],
          [("batch-0", ⟨"s", "permission_batch", 0, ["e1", "e2"], 1, tf⟩),
           ("e3", ⟨"s", "permission_request", 1, [], 1, t4⟩)],
          [("s", 7)], 2⟩,
         [.promptSingle "s" "e3"]) := by
      rw [flushPermissionBatches_single W t4 "s"
        ⟨[⟨"e3", "Edit", "d3"⟩], t3, some 7, 1⟩ _ rfl
        (by show ¬ (t4 - t3 < W); omega)]
      rfl
    simp only [drun, dstep, h1, h2, h3, h4, h5]
    rfl

/-- Witness for C4 amended, at the concrete schedule W = 20, e2 at 2,
flush ticks at 25 and 50, e3 at 30. -/
theorem C4_amended_witness :
    promptedIdLists (drun ⟨20, 3, 150⟩ (initDState [] [("s", 7)])
      [.permEvent "s" 1 ⟨"e1", "Bash", "d1"⟩ 0,
       .permEvent "s" 1 ⟨"e2", "Write", "d2"⟩ 2,
       .flushTick 25,
       .permEvent "s" 1 ⟨"e3", "Edit", "d3"⟩ 30,
       .flushTick 50]).2 = [["e1", "e2"], ["e3"]] :=
  (C4_amended_window_needs_flush_tick 20 2 25 30 50 (by decide) (by decide)
    (by decide) (by decide) (by decide) (by decide)).2

end Afk
